import Mathlib

/-!
Shallow embedding of the reconciliation core of `csv_reconcile.py`:
amount/status normalization, column resolution, row ingestion, and the
SQL-based pairwise matching (duplicates, missing, mismatch classification).
Strings are modelled as Lean `String` (a list of characters); Python's
arbitrary-precision `Decimal` arithmetic is modelled exactly over `Int`
rationals `mantissa / 10 ^ fracDigits`.
-/

namespace CsvReconcile

/-- The set of characters stripped by Python's `str.strip()` (Unicode
whitespace; listed here are the code points that occur in practice). -/
def pyIsSpace (c : Char) : Bool :=
  c = ' ' || c = '\t' || c = '\n' || c = '\r' || c = '\x0b' || c = '\x0c' ||
  c = '\u0085' || c = '\u00A0' || c = '\u2028' || c = '\u2029'

/-- Python `s.strip()` on a list of characters. -/
def pyStrip (s : List Char) : List Char :=
  ((s.dropWhile pyIsSpace).reverse.dropWhile pyIsSpace).reverse

/-- Python `s.strip()` on a `String`. -/
def pyStripS (s : String) : String :=
  ⟨pyStrip s.data⟩

/-- Model of Python `str.casefold()` (character-wise lowering; full Unicode
case folding only differs on characters the reconciler never compares). -/
def pyCasefold (s : List Char) : List Char :=
  s.map Char.toLower

/-- `str.casefold()` on a `String`. -/
def pyCasefoldS (s : String) : String :=
  ⟨pyCasefold s.data⟩

/-- The character class of the regex `[0-9]` used in `_parse_amount_scaled`. -/
def isDigitChar (c : Char) : Bool :=
  '0' ≤ c && c ≤ '9'

/-- Step 3 of `_parse_amount_scaled`: remove every U+00A0 and space char. -/
def removeSpaces (s : List Char) : List Char :=
  s.filter (fun c => !(c = '\u00A0' || c = ' '))

/-- Step 4 of `_parse_amount_scaled`: separator disambiguation.
`decimal_comma` true: drop every dot, then turn every comma into a dot.
Otherwise: with both separators present drop commas; with only commas
present turn them into dots; else leave the string alone. -/
def sepTransform (decimalComma : Bool) (s : List Char) : List Char :=
  if decimalComma then
    (s.filter (fun c => !(c = '.'))).map (fun c => if c = ',' then '.' else c)
  else if s.contains ',' && s.contains '.' then
    s.filter (fun c => !(c = ','))
  else if s.contains ',' then
    s.map (fun c => if c = ',' then '.' else c)
  else s

/-- Step 5 of `_parse_amount_scaled`: `re.sub(r"[^0-9.\-+]", "", s)`. -/
def junkStrip (s : List Char) : List Char :=
  s.filter (fun c => isDigitChar c || c = '.' || c = '-' || c = '+')

/-- Step 6 of `_parse_amount_scaled`: the degenerate tokens rejected before
the decimal parse: `{"", "-", "+", ".", "-.", "+."}`. -/
def isDegenerate (s : List Char) : Bool :=
  s == [] || s == ['-'] || s == ['+'] || s == ['.'] ||
  s == ['-', '.'] || s == ['+', '.']

/-- Digit string to natural number. -/
def digitsToNat (s : List Char) : Nat :=
  s.foldl (fun a c => a * 10 + (c.toNat - 48)) 0

/-- Python `Decimal(s)` restricted to the alphabet `0-9 . + -` that survives
`junkStrip`: an optional sign, then digits with at most one dot and at least
one digit. Returns the signed mantissa and the number of fraction digits;
`none` models `InvalidOperation`. -/
def decParse (s : List Char) : Option (Int × Nat) :=
  let signRest : Int × List Char :=
    match s with
    | '-' :: t => (-1, t)
    | '+' :: t => (1, t)
    | t => (1, t)
  let sign := signRest.1
  let rest := signRest.2
  let intPart := rest.takeWhile isDigitChar
  let rest2 := rest.drop intPart.length
  match rest2 with
  | [] =>
    if intPart.isEmpty then none
    else some (sign * (digitsToNat intPart : Int), 0)
  | '.' :: fracPart =>
    if fracPart.all isDigitChar then
      if intPart.isEmpty && fracPart.isEmpty then none
      else some (sign * (digitsToNat (intPart ++ fracPart) : Int), fracPart.length)
    else none
  | _ => none

/-- Magnitude part of `ROUND_HALF_UP`: `n / d` rounded, halves upward. -/
def halfUpNat (n d : Nat) : Nat :=
  if d ≤ 2 * (n % d) then n / d + 1 else n / d

/-- `Decimal.quantize(Decimal("1"), rounding=ROUND_HALF_UP)` applied to the
exact rational `m / d` (`d > 0`): round to the nearest integer, ties away
from zero. -/
def roundHalfAwayFromZero (m : Int) (d : Nat) : Int :=
  if m < 0 then -(halfUpNat m.natAbs d : Int) else (halfUpNat m.natAbs d : Int)

/-- Steps 3-8 of `_parse_amount_scaled`, applied after the surrounding
parentheses were stripped; `neg` records whether they were present, and
negates the parsed decimal before scaling, exactly as `if neg: d = -d`. -/
def parseAfterSign (s : List Char) (neg : Bool) (scale : Nat)
    (decimalComma : Bool) : Option Int :=
  let s3 := junkStrip (sepTransform decimalComma (removeSpaces s))
  if isDegenerate s3 then none
  else
    match decParse s3 with
    | none => none
    | some mf =>
      let m := if neg then -mf.1 else mf.1
      some (roundHalfAwayFromZero (m * (10 : Int) ^ scale) (10 ^ mf.2))

/-- `_parse_amount_scaled` on a list of characters: strip, detect the
accounting-negative parentheses, then parse and scale. -/
def parseAmountList (raw : List Char) (scale : Nat) (decimalComma : Bool) :
    Option Int :=
  let s := pyStrip raw
  if s.isEmpty then none
  else if s.head? == some '(' && s.getLast? == some ')' then
    parseAfterSign (pyStrip ((s.drop 1).dropLast)) true scale decimalComma
  else
    parseAfterSign s false scale decimalComma

/-- `_parse_amount_scaled(raw, scale=scale, decimal_comma=decimalComma)`. -/
def parseAmountScaled (raw : String) (scale : Nat) (decimalComma : Bool) :
    Option Int :=
  parseAmountList raw.data scale decimalComma

/-- `_status_norm`: trim, empty becomes absent, else casefold. -/
def statusNorm (raw : String) : Option String :=
  let s := pyStripS raw
  if s.data.isEmpty then none else some (pyCasefoldS s)

/-- One row of a per-file table as created by `_create_table` and filled by
`_import_csv_into_table` (the keep-columns are omitted: no claim touches
them and they are carried verbatim). -/
structure Row where
  txid : String
  amount_raw : String
  amount_scaled : Option Int
  status_raw : String
  status_norm : Option String
  rownum : Nat
deriving DecidableEq

/-- Number of rows of the table carrying a given identifier
(`SELECT COUNT(*) ... GROUP BY txid`). -/
def countId (t : List Row) (id : String) : Nat :=
  (t.filter (fun r => r.txid == id)).length

/-- Membership in the `_dups` table: `GROUP BY txid HAVING COUNT(*) > 1`. -/
def isDup (t : List Row) (id : String) : Bool :=
  decide (1 < countId t id)

/-- The unique partition of a table, as computed by the CTEs
`WHERE NOT EXISTS (SELECT 1 FROM dups d WHERE d.txid = t.txid)`. -/
def uniqueRows (t : List Row) : List Row :=
  t.filter (fun r => !(isDup t r.txid))

/-- Rows whose identifier is duplicated:
`WHERE EXISTS (SELECT 1 FROM dups d WHERE d.txid = t.txid)`. -/
def dupRows (t : List Row) : List Row :=
  t.filter (fun r => isDup t r.txid)

/-- SQL `ORDER BY txid, rownum` comparison (TEXT is compared bytewise,
which agrees with code-point order on UTF-8). -/
def rowLe (a b : Row) : Bool :=
  decide (a.txid < b.txid) || (a.txid == b.txid && a.rownum ≤ b.rownum)

/-- SQL `ORDER BY txid` comparison. -/
def txidLe (a b : Row) : Bool :=
  decide (a.txid ≤ b.txid)

/-- The duplicates report of one side: every row with a duplicated
identifier, `ORDER BY t.txid, t.rownum`. -/
def duplicatesReport (t : List Row) : List Row :=
  (dupRows t).mergeSort rowLe

/-- The `missing_in_base.csv` query: rows of `unique(other)` whose
identifier has no counterpart in `unique(base)`, ordered by identifier. -/
def missingInBase (base other : List Row) : List Row :=
  (((uniqueRows other).filter
    (fun r => !((uniqueRows base).any (fun s => s.txid == r.txid))))).mergeSort txidLe

/-- The `missing_in_other.csv` query: rows of `unique(base)` whose
identifier has no counterpart in `unique(other)`, ordered by identifier. -/
def missingInOther (base other : List Row) : List Row :=
  (((uniqueRows base).filter
    (fun r => !((uniqueRows other).any (fun s => s.txid == r.txid))))).mergeSort txidLe

/-- The inner join `FROM b JOIN o ON o.txid = b.txid` over the two unique
partitions: every pair of rows sharing an identifier. -/
def joinPairs (base other : List Row) : List (Row × Row) :=
  (uniqueRows base).flatMap (fun rb =>
    ((uniqueRows other).filter (fun ro => ro.txid == rb.txid)).map
      (fun ro => (rb, ro)))

/-- The `amount_parse_error` column:
`CASE WHEN b.amount_scaled IS NULL OR o.amount_scaled IS NULL THEN 1 ELSE 0 END`. -/
def amountParseError (b o : Row) : Bool :=
  b.amount_scaled.isNone || o.amount_scaled.isNone

/-- The `amount_mismatch` column: `0` when either amount is NULL, else
`ABS(b.amount_scaled - o.amount_scaled) > tolerance`. -/
def amountMismatch (tol : Int) (b o : Row) : Bool :=
  match b.amount_scaled, o.amount_scaled with
  | some x, some y => decide (tol < |x - y|)
  | _, _ => false

/-- SQL `COALESCE(status_norm, '')`. -/
def coalesceEmpty (v : Option String) : String :=
  v.getD ""

/-- The `status_mismatch` column:
`CASE WHEN COALESCE(b.status_norm,'') <> COALESCE(o.status_norm,'') THEN 1 ELSE 0 END`. -/
def statusMismatch (b o : Row) : Bool :=
  !(coalesceEmpty b.status_norm == coalesceEmpty o.status_norm)

/-- The `mismatch_type` CASE expression of the mismatch report. -/
def mismatchType (tol : Int) (b o : Row) : Option String :=
  if amountParseError b o then some ("amount_parse_error")
  else if amountMismatch tol b o && statusMismatch b o then
    some ("amount_and_status_mismatch")
  else if amountMismatch tol b o then some ("amount_mismatch")
  else if statusMismatch b o then some ("status_mismatch")
  else none

/-- The `mismatches.csv` query: joined pairs whose `mismatch_type` is not
NULL, ordered by identifier. -/
def mismatchPairs (tol : Int) (base other : List Row) : List (Row × Row) :=
  ((joinPairs base other).filter
    (fun p => (mismatchType tol p.1 p.2).isSome)).mergeSort
      (fun p q => decide (p.1.txid ≤ q.1.txid))

/-- Column positions and parse settings once the header is resolved. -/
structure IngestConfig where
  idI : Nat
  amountI : Nat
  statusI : Nat
  scale : Nat
  decimalComma : Bool

/-- Running state of the ingestion loop of `_import_csv_into_table`. -/
structure IngestState where
  rows_total : Nat
  rows_bad_id : Nat
  rows_bad_amount : Nat
  recs : List Row
deriving DecidableEq

/-- Python `row[i] if i < len(row) else ""`. -/
def cellAt (row : List String) (i : Nat) : String :=
  (row.get? i).getD ""

/-- The body of the per-row loop of `_import_csv_into_table`: count the row;
skip it (bad id) when the id position is out of range or the trimmed id is
empty; otherwise parse amount and status, count a bad amount when the raw
amount cell is non-empty (Python truthiness, before trimming) yet parses to
absent, and append the record. -/
def ingestStep (cfg : IngestConfig) (st : IngestState) (rownum : Nat)
    (row : List String) : IngestState :=
  let st1 : IngestState := { st with rows_total := st.rows_total + 1 }
  if row.length ≤ cfg.idI then
    { st1 with rows_bad_id := st1.rows_bad_id + 1 }
  else
    let txid := pyStripS (cellAt row cfg.idI)
    if txid.data.isEmpty then
      { st1 with rows_bad_id := st1.rows_bad_id + 1 }
    else
      let amount_raw := cellAt row cfg.amountI
      let amount_scaled := parseAmountScaled amount_raw cfg.scale cfg.decimalComma
      let st2 : IngestState :=
        if !amount_raw.data.isEmpty && amount_scaled.isNone then
          { st1 with rows_bad_amount := st1.rows_bad_amount + 1 }
        else st1
      let status_raw := cellAt row cfg.statusI
      { st2 with recs := st2.recs ++
          [⟨txid, amount_raw, amount_scaled, status_raw, statusNorm status_raw, rownum⟩] }

/-- The whole data-row loop, `enumerate(reader, start=2)` after the header. -/
def ingestFrom (cfg : IngestConfig) (st : IngestState) (rownum : Nat) :
    List (List String) → IngestState
  | [] => st
  | row :: rest => ingestFrom cfg (ingestStep cfg st rownum row) (rownum + 1) rest

/-- Ingestion of all data rows of one file, starting from the empty state. -/
def ingestAll (cfg : IngestConfig) (rows : List (List String)) : IngestState :=
  ingestFrom cfg ⟨0, 0, 0, []⟩ 2 rows

/-- The `ColumnRef` dataclass: column reference by name or index, with a
configurable index base. -/
structure ColumnRef where
  name : Option String := none
  index : Option Int := none
  index_base : Int := 0

/-- A Python dict comprehension `{h: i for i, h in enumerate(header)}`
looked up at `k`: the last index whose key matches (later entries win). -/
def lastMatchIdx (header : List String) (key : String → String) (k : String) :
    Option Nat :=
  ((header.enum.filter (fun p => key p.2 == k)).map (fun p => p.1)).getLast?

/-- `_resolve_index`: with `index` set, validate `index_base` membership in
`{0, 1}`, compute the zero-based position and reject only a negative one
(no upper bound against the header); otherwise look the trimmed name up
exactly, then case-insensitively. Errors model the raised `ValueError`s. -/
def resolveIndex (header : List String) (ref : ColumnRef) (what : String) :
    Except String Nat :=
  match ref.index with
  | some i =>
    if !(ref.index_base == 0 || ref.index_base == 1) then
      Except.error ("Invalid index_base for " ++ what)
    else
      let idx : Int := i - (if ref.index_base == 1 then 1 else 0)
      if idx < 0 then Except.error ("Invalid " ++ what ++ " index")
      else Except.ok idx.toNat
  | none =>
    let name := pyStripS ((ref.name).getD "")
    if name.data.isEmpty then
      Except.error ("Missing " ++ what ++ " column reference (need name or index)")
    else
      match lastMatchIdx header (fun h => h) name with
      | some i => Except.ok i
      | none =>
        match lastMatchIdx header (fun h => pyCasefoldS (pyStripS h))
            (pyCasefoldS (pyStripS name)) with
        | some i => Except.ok i
        | none => Except.error ("Column for " ++ what ++ " not found in CSV header")

/-- Sample row builder used by the witnesses below. -/
def sampleRow (id : String) (a : Option Int) (sn : Option String) (n : Nat) :
    Row :=
  ⟨id, "", a, "", sn, n⟩

/-- Rounding the exact rational `m / d` with `ROUND_HALF_UP` commutes with
negation when the denominator is positive (ties go away from zero on both
sides of zero). -/
theorem roundHalfAwayFromZero_neg (m : Int) (d : Nat) (hd : 0 < d) :
    roundHalfAwayFromZero (-m) d = -roundHalfAwayFromZero m d := by
  unfold roundHalfAwayFromZero
  rw [Int.natAbs_neg]
  rcases lt_trichotomy m 0 with h | h | h
  · rw [if_neg (by omega), if_pos h, neg_neg]
  · subst h
    have h0 : halfUpNat (0 : Int).natAbs d = 0 := by
      simp [halfUpNat, Nat.le_zero, hd.ne']
    rw [h0]
    norm_num
  · rw [if_pos (by omega), if_neg (by omega)]

/-- C6: the amount parser satisfies the spec's vectors — US and European
separator conventions, accounting parentheses, empty and unparseable
strings, and round-half-up with ties away from zero. -/
theorem amount_parser_spec_vectors :
    parseAmountScaled ("1,234.56") 2 false = some 123456 ∧
    parseAmountScaled ("1.234,56") 2 true = some 123456 ∧
    parseAmountScaled ("(12.50)") 2 false = some (-1250) ∧
    parseAmountScaled ("") 2 false = none ∧
    parseAmountScaled ("") 2 true = none ∧
    parseAmountScaled ("abc") 2 false = none ∧
    parseAmountScaled ("abc") 2 true = none ∧
    parseAmountScaled ("1.005") 2 false = some 101 ∧
    parseAmountScaled ("1.005") 2 false ≠ some 100 ∧
    parseAmountScaled ("0.5") 0 false = some 1 ∧
    parseAmountScaled ("-0.5") 0 false = some (-1) := by
  decide

/-- C2: with both amounts present, `amount_mismatch` holds exactly when the
absolute scaled difference strictly exceeds the tolerance; equality with
the tolerance is no mismatch, exceeding it by one is. -/
theorem tolerance_boundary (tol x y : Int) (b o : Row)
    (hb : b.amount_scaled = some x) (ho : o.amount_scaled = some y) :
    (amountMismatch tol b o = true ↔ tol < |x - y|) ∧
    (|x - y| = tol → amountMismatch tol b o = false) ∧
    (|x - y| = tol + 1 → amountMismatch tol b o = true) := by
  have hm : amountMismatch tol b o = decide (tol < |x - y|) := by
    unfold amountMismatch
    rw [hb, ho]
  refine ⟨?_, ?_, ?_⟩ <;> rw [hm]
  · exact decide_eq_true_iff
  · intro h
    rw [h]
    simp
  · intro h
    rw [h]
    simp

/-- Witness for C2 at tolerance 5 and scaled difference 6, then tolerance 6
and scaled difference 6. -/
theorem tolerance_boundary_witness :
    amountMismatch 5 (sampleRow ("T") (some 6) none 2)
        (sampleRow ("T") (some 0) none 3) = true ∧
    amountMismatch 6 (sampleRow ("T") (some 6) none 2)
        (sampleRow ("T") (some 0) none 3) = false :=
  ⟨(tolerance_boundary 5 6 0 _ _ rfl rfl).2.2 (by decide),
   (tolerance_boundary 6 6 0 _ _ rfl rfl).2.1 (by decide)⟩

/-- C9: the accounting-parenthesis sign negates the already-signed parsed
decimal, so an inner explicit minus makes the result positive, as in
`parse("(-12.50)") = 1250`. -/
theorem paren_sign_negates_signed_value (s : List Char) (scale : Nat)
    (dc : Bool) (v : Int)
    (h : parseAfterSign s false scale dc = some v) :
    parseAfterSign s true scale dc = some (-v) ∧
    parseAmountScaled ("(-12.50)") 2 false = some 1250 := by
  refine ⟨?_, by decide⟩
  simp only [parseAfterSign] at h ⊢
  by_cases hdeg :
      isDegenerate (junkStrip (sepTransform dc (removeSpaces s))) = true
  · rw [if_pos hdeg] at h
    exact absurd h (by simp)
  · rw [if_neg hdeg] at h ⊢
    cases hdp : decParse (junkStrip (sepTransform dc (removeSpaces s))) with
    | none =>
      rw [hdp] at h
      exact absurd h (by simp)
    | some mf =>
      rw [hdp] at h
      simp at h ⊢
      rw [roundHalfAwayFromZero_neg _ _ (pow_pos (by norm_num) _), h]

/-- Witness for C9: the inner string `-12.50` parses to `-1250` without the
parenthesis sign and to `1250` with it. -/
theorem paren_sign_negates_signed_value_witness :
    parseAfterSign ("-12.50").data true 2 false = some (-(-1250)) :=
  (paren_sign_negates_signed_value ("-12.50").data 2 false (-1250) (by decide)).1

/-- Amount mismatch is never true when a parse error occurred: the SQL CASE
returns 0 whenever either side's amount is NULL. -/
theorem amountMismatch_eq_false_of_parseError (tol : Int) (b o : Row)
    (h : amountParseError b o = true) : amountMismatch tol b o = false := by
  unfold amountParseError at h
  unfold amountMismatch
  cases hb : b.amount_scaled <;> cases ho : o.amount_scaled <;> simp_all

/-- C1: the mismatch classification follows the precedence chain: a parse
error wins (and excludes amount mismatch by construction), then both
mismatches, then amount alone, then status alone, else the pair is absent
from the mismatch report; an absent amount with differing statuses is
classified only as a parse error. -/
theorem classification_precedence (tol : Int) (b o : Row)
    (base other : List Row) :
    (amountParseError b o = true →
        mismatchType tol b o = some ("amount_parse_error") ∧
        amountMismatch tol b o = false) ∧
    (amountParseError b o = false → amountMismatch tol b o = true →
        statusMismatch b o = true →
        mismatchType tol b o = some ("amount_and_status_mismatch")) ∧
    (amountParseError b o = false → amountMismatch tol b o = true →
        statusMismatch b o = false →
        mismatchType tol b o = some ("amount_mismatch")) ∧
    (amountParseError b o = false → amountMismatch tol b o = false →
        statusMismatch b o = true →
        mismatchType tol b o = some ("status_mismatch")) ∧
    (amountParseError b o = false → amountMismatch tol b o = false →
        statusMismatch b o = false → mismatchType tol b o = none) ∧
    (mismatchType tol b o = none → (b, o) ∉ mismatchPairs tol base other) ∧
    (b.amount_scaled = none → statusMismatch b o = true →
        mismatchType tol b o = some ("amount_parse_error")) := by
  refine ⟨?_, ?_, ?_, ?_, ?_, ?_, ?_⟩
  · intro h
    exact ⟨by simp [mismatchType, h],
      amountMismatch_eq_false_of_parseError tol b o h⟩
  · intro h1 h2 h3
    simp [mismatchType, h1, h2, h3]
  · intro h1 h2 h3
    simp [mismatchType, h1, h2, h3]
  · intro h1 h2 h3
    simp [mismatchType, h1, h2, h3]
  · intro h1 h2 h3
    simp [mismatchType, h1, h2, h3]
  · intro h hmem
    unfold mismatchPairs at hmem
    rw [List.mem_mergeSort] at hmem
    have := (List.mem_filter.mp hmem).2
    rw [h] at this
    simp at this
  · intro h1 h2
    have hpe : amountParseError b o = true := by
      simp [amountParseError, h1]
    simp [mismatchType, hpe]

/-- Witness for C1: a pair with an absent base amount and differing
statuses is classified as a parse error with no amount mismatch, and a
fully matching pair is excluded from the mismatch report. -/
theorem classification_precedence_witness :
    mismatchType 0 (sampleRow ("A") none (some ("paid")) 2)
        (sampleRow ("A") (some 5) (some ("due")) 2) =
      some ("amount_parse_error") ∧
    amountMismatch 0 (sampleRow ("A") none (some ("paid")) 2)
        (sampleRow ("A") (some 5) (some ("due")) 2) = false ∧
    (sampleRow ("A") (some 5) (some ("paid")) 2,
      sampleRow ("A") (some 5) (some ("paid")) 3) ∉
      mismatchPairs 0 [sampleRow ("A") (some 5) (some ("paid")) 2]
        [sampleRow ("A") (some 5) (some ("paid")) 3] := by
  refine ⟨?_, ?_, ?_⟩
  · exact ((classification_precedence 0 _ _ [] []).1 (by decide)).1
  · exact ((classification_precedence 0 _ _ [] []).1 (by decide)).2
  · exact (classification_precedence 0 _ _ _ _).2.2.2.2.2.1 (by decide)

/-- Normalized statuses are never the empty string: a trimmed non-empty
string stays non-empty under casefolding, so SQL's COALESCE to the empty
string cannot collide with a concrete normalized status. -/
theorem statusNorm_ne_some_empty (raw : String) : statusNorm raw ≠ some "" := by
  unfold statusNorm
  by_cases h : (pyStripS raw).data.isEmpty = true
  · simp [h]
  · rw [if_neg h]
    intro hc
    apply h
    rw [Option.some.injEq] at hc
    have hdata : List.map Char.toLower (pyStripS raw).data = ([] : List Char) := by
      have := congrArg String.data hc
      simpa [pyCasefoldS, pyCasefold] using this
    rw [List.map_eq_nil_iff] at hdata
    simp [hdata]

/-- C7: the status comparison is exactly equality of normalized forms:
absent matches only absent, and COALESCE never conflates absent with a
concrete normalized status (which is never empty). -/
theorem status_comparison (ra rb : String) (b o : Row)
    (hb : b.status_norm = statusNorm ra) (ho : o.status_norm = statusNorm rb) :
    (statusMismatch b o = false ↔ statusNorm ra = statusNorm rb) ∧
    (statusNorm ra = none → statusNorm rb = none →
        statusMismatch b o = false) ∧
    (∀ s : String, statusNorm ra = none → statusNorm rb = some s →
        statusMismatch b o = true) ∧
    (∀ s : String, statusNorm ra = some s → statusNorm rb = none →
        statusMismatch b o = true) := by
  have hne1 := statusNorm_ne_some_empty ra
  have hne2 := statusNorm_ne_some_empty rb
  have key : statusMismatch b o = false ↔ statusNorm ra = statusNorm rb := by
    unfold statusMismatch coalesceEmpty
    rw [hb, ho]
    cases h1 : statusNorm ra with
    | none =>
      cases h2 : statusNorm rb with
      | none => simp
      | some s =>
        have hs : s ≠ "" := fun e => hne2 (by rw [h2, e])
        simp [Ne.symm hs]
    | some s =>
      have hs : s ≠ "" := fun e => hne1 (by rw [h1, e])
      cases h2 : statusNorm rb with
      | none => simp [hs]
      | some t => simp
  refine ⟨key, ?_, ?_, ?_⟩
  · intro h1 h2
    rw [key, h1, h2]
  · intro s h1 h2
    have hne : ¬ statusMismatch b o = false := by
      intro e
      rw [key, h1, h2] at e
      exact Option.noConfusion e
    exact Bool.of_not_eq_false hne
  · intro s h1 h2
    have hne : ¬ statusMismatch b o = false := by
      intro e
      rw [key, h1, h2] at e
      exact Option.noConfusion e
    exact Bool.of_not_eq_false hne

/-- Witness for C7: `Paid ` and `paid` normalize equal and do not mismatch,
while an absent status mismatches a concrete `paid`. -/
theorem status_comparison_witness :
    statusMismatch (sampleRow ("A") none (statusNorm ("Paid ")) 2)
        (sampleRow ("A") none (statusNorm ("paid")) 3) = false ∧
    statusMismatch (sampleRow ("A") none (statusNorm ("")) 2)
        (sampleRow ("A") none (statusNorm ("paid")) 3) = true := by
  constructor
  · exact (status_comparison ("Paid ") ("paid") _ _ rfl rfl).1.mpr (by decide)
  · exact (status_comparison ("") ("paid") _ _ rfl rfl).2.2.1 ("paid")
      (by decide) (by decide)

/-- An all-whitespace character list strips to nothing. -/
theorem pyStrip_eq_nil_of_all_space (s : List Char)
    (h : s.all pyIsSpace = true) : pyStrip s = [] := by
  unfold pyStrip
  have h1 : s.dropWhile pyIsSpace = [] := by
    rw [List.dropWhile_eq_nil_iff]
    intro x hx
    exact List.all_eq_true.mp h x hx
  rw [h1]
  rfl

/-- A whitespace-only amount string parses to absent, straight from step 1
of `_parse_amount_scaled`. -/
theorem parseAmountScaled_none_of_all_space (raw : String) (scale : Nat)
    (dc : Bool) (h : raw.data.all pyIsSpace = true) :
    parseAmountScaled raw scale dc = none := by
  simp only [parseAmountScaled, parseAmountList,
    pyStrip_eq_nil_of_all_space raw.data h]
  rfl

/-- C8 counterexample: a single-space amount cell is whitespace-only and is
kept with an absent amount, yet it does increment `rows_bad_amount`: the
code tests the raw cell for Python truthiness before any trimming. -/
theorem whitespace_amount_counted_cex :
    (" ").data.all pyIsSpace = true ∧
    (ingestStep ⟨0, 1, 2, 2, false⟩ ⟨0, 0, 0, []⟩ 2
        [("T1"), (" "), ("ok")]).rows_bad_amount ≠ 0 ∧
    (ingestStep ⟨0, 1, 2, 2, false⟩ ⟨0, 0, 0, []⟩ 2
        [("T1"), (" "), ("ok")]).rows_bad_amount = 1 ∧
    (ingestStep ⟨0, 1, 2, 2, false⟩ ⟨0, 0, 0, []⟩ 2
        [("T1"), (" "), ("ok")]).recs =
      [⟨("T1"), (" "), none, ("ok"), some ("ok"), 2⟩] := by
  decide

/-- C8 amended: a row with a valid identifier and a whitespace-only amount
cell is kept with `amount_scaled` absent; `rows_bad_amount` stays unchanged
when the cell is the empty string but is incremented when the cell is
non-empty whitespace (the defect test uses the untrimmed cell). -/
theorem whitespace_amount_policy (cfg : IngestConfig) (st : IngestState)
    (rownum : Nat) (row : List String)
    (hid : cfg.idI < row.length)
    (htx : (pyStripS (cellAt row cfg.idI)).data.isEmpty = false)
    (hws : (cellAt row cfg.amountI).data.all pyIsSpace = true) :
    (ingestStep cfg st rownum row).recs =
      st.recs ++ [⟨pyStripS (cellAt row cfg.idI), cellAt row cfg.amountI,
        none, cellAt row cfg.statusI, statusNorm (cellAt row cfg.statusI),
        rownum⟩] ∧
    (ingestStep cfg st rownum row).rows_bad_amount =
      st.rows_bad_amount +
        (if (cellAt row cfg.amountI).data.isEmpty = true then 0 else 1) := by
  have hparse := parseAmountScaled_none_of_all_space (cellAt row cfg.amountI)
    cfg.scale cfg.decimalComma hws
  simp only [ingestStep, hparse]
  rw [if_neg (by omega : ¬ row.length ≤ cfg.idI)]
  rw [if_neg (by simp [htx])]
  by_cases he : (cellAt row cfg.amountI).data.isEmpty = true
  · simp [he]
  · simp [he]

/-- Witness for the amended C8: the single-space amount cell row. -/
theorem whitespace_amount_policy_witness :
    (ingestStep ⟨0, 1, 2, 2, false⟩ ⟨0, 0, 0, []⟩ 2
        [("T1"), (" "), ("ok")]).rows_bad_amount = 1 := by
  rw [(whitespace_amount_policy ⟨0, 1, 2, 2, false⟩ ⟨0, 0, 0, []⟩ 2
      [("T1"), (" "), ("ok")] (by decide) (by decide) (by decide)).2]
  decide

/-- C10: an in-bounds-from-below index reference always resolves to its
computed zero-based position, with no upper bound against the header; and a
data row whose id position falls outside the row is counted as a bad id and
skipped (the state gains only the two counters). -/
theorem index_resolution_unbounded (header : List String) (ref : ColumnRef)
    (what : String) (i : Int)
    (hidx : ref.index = some i)
    (hbase : ref.index_base = 0 ∨ ref.index_base = 1)
    (hpos : 0 ≤ i - (if ref.index_base == 1 then 1 else 0)) :
    resolveIndex header ref what =
      Except.ok (i - (if ref.index_base == 1 then 1 else 0)).toNat ∧
    (∀ (cfg : IngestConfig) (st : IngestState) (rownum : Nat)
        (row : List String), row.length ≤ cfg.idI →
        ingestStep cfg st rownum row =
          { st with rows_total := st.rows_total + 1,
                    rows_bad_id := st.rows_bad_id + 1 }) := by
  constructor
  · unfold resolveIndex
    rw [hidx]
    have hb : (ref.index_base == 0 || ref.index_base == 1) = true := by
      rcases hbase with h | h <;> simp [h]
    simp only [hb, Bool.not_true, Bool.false_eq_true, if_false]
    rw [if_neg (by omega :
      ¬ (i - (if ref.index_base == 1 then 1 else 0)) < 0)]
  · intro cfg st rownum row h
    unfold ingestStep
    rw [if_pos h]

/-- Witness for C10: index 5 resolves against an empty header, and an empty
data row is skipped as a bad id. -/
theorem index_resolution_unbounded_witness :
    resolveIndex [] ⟨none, some 5, 0⟩ ("x") = Except.ok 5 ∧
    ingestStep ⟨0, 1, 2, 2, false⟩ ⟨0, 0, 0, []⟩ 2 [] = ⟨1, 1, 0, []⟩ := by
  constructor
  · rw [(index_resolution_unbounded [] ⟨none, some 5, 0⟩ ("x") 5 rfl
      (Or.inl rfl) (by decide)).1]
    rfl
  · rw [(index_resolution_unbounded [] ⟨none, some 5, 0⟩ ("x") 5 rfl
      (Or.inl rfl) (by decide)).2 ⟨0, 1, 2, 2, false⟩ ⟨0, 0, 0, []⟩ 2 []
      (by decide)]

/-- The `ORDER BY txid, rownum` comparison is transitive. -/
theorem rowLe_trans (a b c : Row) (h1 : rowLe a b = true)
    (h2 : rowLe b c = true) : rowLe a c = true := by
  unfold rowLe at h1 h2 ⊢
  simp only [Bool.or_eq_true, Bool.and_eq_true, decide_eq_true_eq,
    beq_iff_eq] at h1 h2 ⊢
  rcases h1 with h1 | ⟨h1, h1n⟩ <;> rcases h2 with h2 | ⟨h2, h2n⟩
  · exact Or.inl (lt_trans h1 h2)
  · exact Or.inl (h2 ▸ h1)
  · exact Or.inl (h1 ▸ h2)
  · exact Or.inr ⟨h1.trans h2, le_trans h1n h2n⟩

/-- The `ORDER BY txid, rownum` comparison is total. -/
theorem rowLe_total (a b : Row) : (rowLe a b || rowLe b a) = true := by
  unfold rowLe
  rcases lt_trichotomy a.txid b.txid with h | h | h
  · simp [h]
  · rcases Nat.le_total a.rownum b.rownum with h2 | h2 <;> simp [h, h2]
  · simp [h]

/-- The `ORDER BY txid` comparison is transitive. -/
theorem txidLe_trans (a b c : Row) (h1 : txidLe a b = true)
    (h2 : txidLe b c = true) : txidLe a c = true := by
  unfold txidLe at h1 h2 ⊢
  simp only [decide_eq_true_eq] at h1 h2 ⊢
  exact le_trans h1 h2

/-- The `ORDER BY txid` comparison is total. -/
theorem txidLe_total (a b : Row) : (txidLe a b || txidLe b a) = true := by
  unfold txidLe
  rcases le_total a.txid b.txid with h | h <;> simp [h]

/-- A row of the unique partition carries a non-duplicated identifier. -/
theorem mem_uniqueRows_not_dup {t : List Row} {r : Row}
    (h : r ∈ uniqueRows t) : isDup t r.txid = false := by
  have h2 := (List.mem_filter.mp h).2
  simpa using h2

/-- Both components of a joined pair come from the unique partitions. -/
theorem mem_uniqueRows_of_mem_joinPairs {b o : List Row} {p : Row × Row}
    (h : p ∈ joinPairs b o) : p.1 ∈ uniqueRows b ∧ p.2 ∈ uniqueRows o := by
  unfold joinPairs at h
  rw [List.mem_flatMap] at h
  obtain ⟨rb, hrb, hp⟩ := h
  rw [List.mem_map] at hp
  obtain ⟨ro, hro, rfl⟩ := hp
  exact ⟨hrb, (List.mem_filter.mp hro).1⟩

/-- C3: a duplicated identifier of a record set never reaches the missing
reports of that side nor the join behind the mismatch report; all its rows
are listed in that side's duplicates report, which is exactly the rows with
duplicated identifiers (never merged or summed), ordered by identifier and
then by original row number. -/
theorem duplicate_exclusion (t u : List Row) (tol : Int) (id : String)
    (hdup : isDup t id = true) :
    (∀ r ∈ missingInOther t u, r.txid ≠ id) ∧
    (∀ r ∈ missingInBase u t, r.txid ≠ id) ∧
    (∀ p ∈ mismatchPairs tol t u, p.1.txid ≠ id) ∧
    (∀ p ∈ mismatchPairs tol u t, p.2.txid ≠ id) ∧
    (∀ r ∈ t, r.txid = id → r ∈ duplicatesReport t) ∧
    (duplicatesReport t).Perm (t.filter (fun r => isDup t r.txid)) ∧
    (duplicatesReport t).Pairwise (fun a b => rowLe a b = true) := by
  refine ⟨?_, ?_, ?_, ?_, ?_, ?_, ?_⟩
  · intro r hr he
    unfold missingInOther at hr
    rw [List.mem_mergeSort] at hr
    have hu := mem_uniqueRows_not_dup (List.mem_filter.mp hr).1
    rw [he, hdup] at hu
    exact Bool.noConfusion hu
  · intro r hr he
    unfold missingInBase at hr
    rw [List.mem_mergeSort] at hr
    have hu := mem_uniqueRows_not_dup (List.mem_filter.mp hr).1
    rw [he, hdup] at hu
    exact Bool.noConfusion hu
  · intro p hp he
    unfold mismatchPairs at hp
    rw [List.mem_mergeSort] at hp
    have hj := (List.mem_filter.mp hp).1
    have hu := mem_uniqueRows_not_dup (mem_uniqueRows_of_mem_joinPairs hj).1
    rw [he, hdup] at hu
    exact Bool.noConfusion hu
  · intro p hp he
    unfold mismatchPairs at hp
    rw [List.mem_mergeSort] at hp
    have hj := (List.mem_filter.mp hp).1
    have hu := mem_uniqueRows_not_dup (mem_uniqueRows_of_mem_joinPairs hj).2
    rw [he, hdup] at hu
    exact Bool.noConfusion hu
  · intro r hr he
    unfold duplicatesReport
    rw [List.mem_mergeSort]
    unfold dupRows
    rw [List.mem_filter]
    exact ⟨hr, by rw [he]; exact hdup⟩
  · exact List.mergeSort_perm (dupRows t) rowLe
  · exact List.sorted_mergeSort rowLe_trans rowLe_total (dupRows t)

/-- Witness for C3: both rows of a twice-occurring identifier land in the
duplicates report and the id is absent from a missing report. -/
theorem duplicate_exclusion_witness :
    sampleRow ("A") (some 1) none 2 ∈
      duplicatesReport [sampleRow ("A") (some 1) none 2,
        sampleRow ("A") (some 2) none 3] :=
  (duplicate_exclusion [sampleRow ("A") (some 1) none 2,
      sampleRow ("A") (some 2) none 3] [] 0 ("A")
    (by decide)).2.2.2.2.1 (sampleRow ("A") (some 1) none 2)
    (by decide) rfl

/-- C4: with disjoint unique identifier sets, every unique base row lands in
missing-in-other, every unique other row lands in missing-in-base, and no
identifier appears in both reports. -/
theorem disjoint_missing_reports (base other : List Row)
    (hdisj : ∀ r ∈ uniqueRows base, ∀ s ∈ uniqueRows other,
        r.txid ≠ s.txid) :
    (∀ r ∈ uniqueRows base, r ∈ missingInOther base other) ∧
    (∀ s ∈ uniqueRows other, s ∈ missingInBase base other) ∧
    (∀ id : String,
        (∃ r ∈ missingInOther base other, r.txid = id) →
        ¬ ∃ s ∈ missingInBase base other, s.txid = id) := by
  refine ⟨?_, ?_, ?_⟩
  · intro r hr
    unfold missingInOther
    rw [List.mem_mergeSort, List.mem_filter]
    refine ⟨hr, ?_⟩
    rw [Bool.not_eq_true', List.any_eq_false]
    intro x hx
    rw [Bool.not_eq_true, beq_eq_false_iff_ne]
    exact fun e => hdisj r hr x hx e.symm
  · intro r hr
    unfold missingInBase
    rw [List.mem_mergeSort, List.mem_filter]
    refine ⟨hr, ?_⟩
    rw [Bool.not_eq_true', List.any_eq_false]
    intro x hx
    rw [Bool.not_eq_true, beq_eq_false_iff_ne]
    exact fun e => hdisj x hx r hr e
  · rintro id ⟨r, hr, hrid⟩ ⟨s, hs, hsid⟩
    unfold missingInOther at hr
    unfold missingInBase at hs
    rw [List.mem_mergeSort] at hr hs
    exact hdisj r (List.mem_filter.mp hr).1 s (List.mem_filter.mp hs).1
      (by rw [hrid, hsid])

/-- Witness for C4 at base with id A and other with id B. -/
theorem disjoint_missing_reports_witness :
    sampleRow ("A") (some 1) none 2 ∈
      missingInOther [sampleRow ("A") (some 1) none 2]
        [sampleRow ("B") (some 1) none 2] ∧
    sampleRow ("B") (some 1) none 2 ∈
      missingInBase [sampleRow ("A") (some 1) none 2]
        [sampleRow ("B") (some 1) none 2] :=
  ⟨(disjoint_missing_reports _ _ (by decide)).1 _ (by decide),
   (disjoint_missing_reports _ _ (by decide)).2.1 _ (by decide)⟩

/-- Membership characterization of the missing-in-other report: exactly the
identifiers of the unique base partition with no counterpart among the
unique other rows. -/
theorem mem_missingInOther_iff (b o : List Row) (id : String) :
    (∃ r ∈ missingInOther b o, r.txid = id) ↔
      (∃ r ∈ uniqueRows b, r.txid = id) ∧
      ¬ ∃ s ∈ uniqueRows o, s.txid = id := by
  unfold missingInOther
  constructor
  · rintro ⟨r, hr, rfl⟩
    rw [List.mem_mergeSort, List.mem_filter] at hr
    obtain ⟨h1, h2⟩ := hr
    refine ⟨⟨r, h1, rfl⟩, ?_⟩
    rintro ⟨x, hx, hxid⟩
    rw [Bool.not_eq_true', List.any_eq_false] at h2
    have h3 := h2 x hx
    rw [Bool.not_eq_true, beq_eq_false_iff_ne] at h3
    exact h3 hxid
  · rintro ⟨⟨r, hr, rfl⟩, hno⟩
    refine ⟨r, ?_, rfl⟩
    rw [List.mem_mergeSort, List.mem_filter]
    refine ⟨hr, ?_⟩
    rw [Bool.not_eq_true', List.any_eq_false]
    intro x hx
    rw [Bool.not_eq_true, beq_eq_false_iff_ne]
    exact fun e => hno ⟨x, hx, e⟩

/-- C5 counterexample: with base holding only id A and other holding only
id B, the identifier B is present in the unique other partition with no
counterpart in the unique base partition, yet the missing-in-other report
does not contain it; the report lists the base-side identifier A instead. -/
theorem missing_in_other_direction_cex :
    (∃ r ∈ uniqueRows [sampleRow ("B") (some 1) none 2], r.txid = ("B")) ∧
    (¬ ∃ r ∈ uniqueRows [sampleRow ("A") (some 1) none 2],
        r.txid = ("B")) ∧
    (¬ ∃ r ∈ missingInOther [sampleRow ("A") (some 1) none 2]
        [sampleRow ("B") (some 1) none 2], r.txid = ("B")) ∧
    (∃ r ∈ missingInOther [sampleRow ("A") (some 1) none 2]
        [sampleRow ("B") (some 1) none 2], r.txid = ("A")) := by
  refine ⟨by decide, by decide, ?_, ?_⟩
  · rw [mem_missingInOther_iff]
    decide
  · rw [mem_missingInOther_iff]
    decide

/-- C5 amended: missing-in-other contains exactly the identifiers of the
unique base partition with no counterpart in the unique other partition,
and missing-in-base symmetrically those of the unique other partition with
no counterpart in the unique base partition. -/
theorem missing_reports_characterization (base other : List Row)
    (id : String) :
    ((∃ r ∈ missingInOther base other, r.txid = id) ↔
      (∃ r ∈ uniqueRows base, r.txid = id) ∧
      ¬ ∃ s ∈ uniqueRows other, s.txid = id) ∧
    ((∃ s ∈ missingInBase base other, s.txid = id) ↔
      (∃ s ∈ uniqueRows other, s.txid = id) ∧
      ¬ ∃ r ∈ uniqueRows base, r.txid = id) :=
  ⟨mem_missingInOther_iff base other id,
   mem_missingInOther_iff other base id⟩

end CsvReconcile
